import Mathlib

/-!
Shallow embedding of the OpenDAL accessor/layer core analyzed here:
the error-context layer (src/core/src/layers/error_context.rs), the
Azure Blob backend verbs (src/core/src/services/azblob/backend.rs) and
the foreign-function binding (src/bindings/java/src/lib.rs).

Conventions of the embedding:
- Rust `Result<T>` becomes `Except Error T`; async verbs are flattened to
  their eventual results (the scheduling of `await`/`Poll` is not modelled,
  only the value each call settles to).
- The `Error` value type, its `new`/`with_operation`/`with_context`
  methods, the `Scheme` string parser and the operation-tag enums live in
  parts of the repository outside the analyzed sources, so they are
  modelled from the spec (each such definition says so in its doc comment).
- HTTP responses of the Azure Blob backend are abstracted to the fields
  the analyzed code inspects: the status code, the CONTENT_TYPE header,
  and (for batch) the per-path outcome the multipart body encodes.
-/

set_option autoImplicit false

/-- Modelled from the spec: `Scheme` is an enumerated tag identifying a
backend family (core `types/scheme.rs` is not among the analyzed sources).
The variants are the ones named by the analyzed sources: the Azure Blob
backend plus every scheme the foreign binding dispatches on, and `Ftp` as a
scheme recognized by the parser but not supported by the binding. -/
inductive Scheme where
  | Azblob | Azdfs | Fs | Gcs | Ghac | Http | Ipmfs | Memory
  | Obs | Oss | S3 | Webdav | Webhdfs | Ftp
  deriving DecidableEq

/-- Modelled from the spec: the textual rendering of a scheme, used when a
scheme is stored as an error-context value. -/
def Scheme.toStr : Scheme → String
  | .Azblob => "azblob"
  | .Azdfs => "azdfs"
  | .Fs => "fs"
  | .Gcs => "gcs"
  | .Ghac => "ghac"
  | .Http => "http"
  | .Ipmfs => "ipmfs"
  | .Memory => "memory"
  | .Obs => "obs"
  | .Oss => "oss"
  | .S3 => "s3"
  | .Webdav => "webdav"
  | .Webhdfs => "webhdfs"
  | .Ftp => "ftp"

/-- Modelled from the spec: `Scheme`'s string parser (`FromStr`), mapping
the known scheme names and failing on anything else. -/
def Scheme.from_str (s : String) : Option Scheme :=
  match s with
  | "azblob" => some .Azblob
  | "azdfs" => some .Azdfs
  | "fs" => some .Fs
  | "gcs" => some .Gcs
  | "ghac" => some .Ghac
  | "http" => some .Http
  | "ipmfs" => some .Ipmfs
  | "memory" => some .Memory
  | "obs" => some .Obs
  | "oss" => some .Oss
  | "s3" => some .S3
  | "webdav" => some .Webdav
  | "webhdfs" => some .Webhdfs
  | "ftp" => some .Ftp
  | _ => none

/-- Modelled from the spec (section 7): the error Kind taxonomy. -/
inductive ErrorKind where
  | NotFound | AlreadyExists | PermissionDenied | Unsupported
  | ConfigInvalid | Unexpected | RateLimited
  deriving DecidableEq

/-- Modelled from the spec (section 3): a structured Error value — a Kind,
a free-text message, an optional originating operation tag, and an ordered
list of (key, value) context entries accumulated as the error passes up
through layers (the core `Error` type is not among the analyzed sources). -/
structure Error where
  kind : ErrorKind
  message : String
  operation : Option String
  context : List (String × String)
  deriving DecidableEq

/-- Modelled from the spec: `Error::new` builds an error from a Kind and a
message, with no operation tag and no context yet. -/
def Error.new (kind : ErrorKind) (message : String) : Error :=
  { kind := kind, message := message, operation := none, context := [] }

/-- Modelled from the spec: `with_operation` records which operation the
error originated from. -/
def Error.with_operation (e : Error) (op : String) : Error :=
  { e with operation := some op }

/-- Modelled from the spec: `with_context` appends one (key, value) entry
to the ordered context list, never touching the Kind or message. -/
def Error.with_context (e : Error) (key value : String) : Error :=
  { e with context := e.context ++ [(key, value)] }

/-- Modelled from the spec: the accessor-level `Operation` tags, one per
verb the error-context layer names (usage in error_context.rs). -/
inductive Operation where
  | CreateDir | Read | Write | Stat | Delete | List | Scan | Presign | Batch
  | BlockingCreateDir | BlockingRead | BlockingWrite | BlockingStat
  | BlockingDelete | BlockingList | BlockingScan
  deriving DecidableEq

/-- Renders an accessor operation tag as the string stored in the error. -/
def Operation.toStr : Operation → String
  | .CreateDir => "CreateDir"
  | .Read => "Read"
  | .Write => "Write"
  | .Stat => "Stat"
  | .Delete => "Delete"
  | .List => "List"
  | .Scan => "Scan"
  | .Presign => "Presign"
  | .Batch => "Batch"
  | .BlockingCreateDir => "BlockingCreateDir"
  | .BlockingRead => "BlockingRead"
  | .BlockingWrite => "BlockingWrite"
  | .BlockingStat => "BlockingStat"
  | .BlockingDelete => "BlockingDelete"
  | .BlockingList => "BlockingList"
  | .BlockingScan => "BlockingScan"

/-- Modelled from the spec: the reader stream-method tags named by the
error-context layer (oio `ReadOperation`, outside the analyzed sources). -/
inductive ReadOperation where
  | Read | Seek | Next | BlockingRead | BlockingSeek | BlockingNext
  deriving DecidableEq

def ReadOperation.toStr : ReadOperation → String
  | .Read => "ReaderRead"
  | .Seek => "ReaderSeek"
  | .Next => "ReaderNext"
  | .BlockingRead => "BlockingReaderRead"
  | .BlockingSeek => "BlockingReaderSeek"
  | .BlockingNext => "BlockingReaderNext"

/-- Modelled from the spec: the writer stream-method tags (oio
`WriteOperation`). The `Abort` variant is the tag naming the writer's
`abort` method, required by the spec's rule that the tag identifies which
stream method failed. -/
inductive WriteOperation where
  | Write | Append | Abort | Close | BlockingWrite | BlockingAppend | BlockingClose
  deriving DecidableEq

def WriteOperation.toStr : WriteOperation → String
  | .Write => "WriterWrite"
  | .Append => "WriterAppend"
  | .Abort => "WriterAbort"
  | .Close => "WriterClose"
  | .BlockingWrite => "BlockingWriterWrite"
  | .BlockingAppend => "BlockingWriterAppend"
  | .BlockingClose => "BlockingWriterClose"

/-- Modelled from the spec: the pager stream-method tags (oio
`PageOperation`). -/
inductive PageOperation where
  | Next | BlockingNext
  deriving DecidableEq

def PageOperation.toStr : PageOperation → String
  | .Next => "PagerNext"
  | .BlockingNext => "BlockingPagerNext"

/-- Modelled from the spec: a byte range carried by a read request
(an optional offset and an optional size). -/
structure BytesRange where
  offset : Option Nat
  size : Option Nat
  deriving DecidableEq

/-- Modelled from the spec: the textual rendering of a byte range, stored
as the "range" context value by the error-context layer. -/
def BytesRange.toStr (r : BytesRange) : String :=
  (match r.offset with
    | some o => toString o
    | none => "") ++ "-" ++
  (match r.size with
    | some s => toString s
    | none => "")

/-- Modelled from the spec: `OpRead` carries an optional byte range. -/
structure OpRead where
  range : BytesRange
  deriving DecidableEq

/-- Modelled from the spec: `OpWrite` carries the append flag. -/
structure OpWrite where
  append : Bool
  deriving DecidableEq

/-- Modelled from the spec: `OpList` carries an optional result-count limit. -/
structure OpList where
  limit : Option Nat
  deriving DecidableEq

/-- Modelled from the spec: `OpScan` carries an optional result-count limit. -/
structure OpScan where
  limit : Option Nat
  deriving DecidableEq

/-- Modelled from the spec: `OpBatch` carries the list of (path, delete
operation) pairs submitted by the caller; `into_operation` in the source
yields exactly this list. -/
structure OpBatch where
  ops : List (String × Unit)
  deriving DecidableEq

abbrev OpCreate := Unit
abbrev OpStat := Unit
abbrev OpDelete := Unit
abbrev OpPresign := Unit

/-- Modelled from the spec: the file/directory mode of an entry. -/
inductive EntryMode where
  | FILE | DIR
  deriving DecidableEq

/-- Modelled from the spec: entry metadata; the analyzed code only ever
constructs it from a mode (`Metadata::new(EntryMode::DIR)`) or obtains it
opaquely from parsed response headers. -/
structure Metadata where
  mode : EntryMode
  deriving DecidableEq

def Metadata.new (mode : EntryMode) : Metadata :=
  { mode := mode }

abbrev RpCreate := Unit
abbrev RpWrite := Unit
abbrev RpDelete := Unit
abbrev RpList := Unit
abbrev RpScan := Unit
abbrev RpPresign := Unit
abbrev RpStat := Metadata

/-- Modelled from the spec: `RpRead` pairs with a Reader and carries the
metadata parsed from the response. -/
abbrev RpRead := Option Metadata

/-- Modelled from the spec: the batch response is a mapping from each
submitted path to an independent success-or-Error result. -/
abbrev RpBatch := List (String × Except Error Unit)

/-- Modelled from the spec: a backend capability bit. -/
inductive AccessorCapability where
  | Read | Write | List | Scan | Copy | Batch | Presign | Blocking
  deriving DecidableEq

/-- Modelled from the spec: a backend hint bit. -/
inductive AccessorHint where
  | ReadStreamable
  deriving DecidableEq

/-- Modelled from the spec (section 3): the static descriptor of a backend
instance — scheme, root, display name, capability set, hints, and the
maximum batch size. -/
structure AccessorInfo where
  scheme : Scheme
  root : String
  name : String
  max_batch_operations : Nat
  capabilities : List AccessorCapability
  hints : List AccessorHint
  deriving DecidableEq

/-! ### Stream object models

Per-session stream objects, abstracted to the result each method settles
to. `Poll`/`Context` scheduling and the `&mut [u8]` buffer are flattened:
a read takes the buffer capacity and yields the byte count, as the error
annotation under study only transforms the result value. -/

/-- Modelled from the spec: a seek target (absolute, relative-to-current,
or relative-to-end). -/
inductive SeekFrom where
  | Start (n : Nat)
  | Current (i : Int)
  | FromEnd (i : Int)
  deriving DecidableEq

/-- An asynchronous reader: the three oio Read methods, flattened to the
values their polls settle to. -/
structure OioReader where
  poll_read : Nat → Except Error Nat
  poll_seek : SeekFrom → Except Error Nat
  poll_next : Option (Except Error (List Nat))

/-- A blocking reader: the three oio BlockingRead methods. -/
structure OioBlockingReader where
  read : Nat → Except Error Nat
  seek : SeekFrom → Except Error Nat
  next : Option (Except Error (List Nat))

/-- An asynchronous writer: the four oio Write methods. -/
structure OioWriter where
  write : List Nat → Except Error Unit
  append : List Nat → Except Error Unit
  abort : Except Error Unit
  close : Except Error Unit

/-- A blocking writer: the three oio BlockingWrite methods. -/
structure OioBlockingWriter where
  write : List Nat → Except Error Unit
  append : List Nat → Except Error Unit
  close : Except Error Unit

/-- An asynchronous pager: oio Page's `next`, yielding a batch of entries
(modelled by their paths) or the end-of-listing signal `none`. -/
structure OioPager where
  next : Except Error (Option (List String))

/-- A blocking pager: oio BlockingPage's `next`. -/
structure OioBlockingPager where
  next : Except Error (Option (List String))

/-! ### The Accessor surface

The polymorphic backend interface, as the error-context layer sees it:
one field per verb the layer overrides, parameterized by the six
associated stream types. `copy`/`blocking_copy` are the verbs the
error-context layer does **not** override (error_context.rs implements no
copy method); per the LayeredAccessor default they delegate unchanged to
the inner accessor, so they do not appear in the layered surface modelled
here. -/

structure Accessor (R BR W BW P BP : Type) where
  info : AccessorInfo
  create_dir : String → OpCreate → Except Error RpCreate
  read : String → OpRead → Except Error (RpRead × R)
  write : String → OpWrite → Except Error (RpWrite × W)
  stat : String → OpStat → Except Error RpStat
  delete : String → OpDelete → Except Error RpDelete
  list : String → OpList → Except Error (RpList × P)
  scan : String → OpScan → Except Error (RpScan × P)
  presign : String → OpPresign → Except Error RpPresign
  batch : OpBatch → Except Error RpBatch
  blocking_create_dir : String → OpCreate → Except Error RpCreate
  blocking_read : String → OpRead → Except Error (RpRead × BR)
  blocking_write : String → OpWrite → Except Error (RpWrite × BW)
  blocking_stat : String → OpStat → Except Error RpStat
  blocking_delete : String → OpDelete → Except Error RpDelete
  blocking_list : String → OpList → Except Error (RpList × BP)
  blocking_scan : String → OpScan → Except Error (RpScan × BP)

/-! ### ErrorContextLayer (src/core/src/layers/error_context.rs) -/

/-- The thin proxy the layer wraps every returned stream object in
(error_context.rs line 344): the backend scheme, the path of the session,
and the inner stream. -/
structure ErrorContextWrapper (T : Type) where
  scheme : Scheme
  path : String
  inner : T

/-- The layered accessor produced by ErrorContextLayer (line 56): the
captured AccessorInfo and the inner accessor. -/
structure ErrorContextAccessor (R BR W BW P BP : Type) where
  meta : AccessorInfo
  inner : Accessor R BR W BW P BP

/-- `ErrorContextLayer::layer` (line 49): captures `inner.info()` and
wraps the accessor. -/
def ErrorContextLayer.layer {R BR W BW P BP : Type} (inner : Accessor R BR W BW P BP) :
    ErrorContextAccessor R BR W BW P BP :=
  { meta := inner.info, inner := inner }

/-- `metadata` (line 81): returns the captured info. -/
def ErrorContextAccessor.metadata {R BR W BW P BP : Type}
    (a : ErrorContextAccessor R BR W BW P BP) : AccessorInfo :=
  a.meta

/-- `create_dir` (line 85). -/
def ErrorContextAccessor.create_dir {R BR W BW P BP : Type}
    (a : ErrorContextAccessor R BR W BW P BP) (path : String) (args : OpCreate) :
    Except Error RpCreate :=
  (a.inner.create_dir path args).mapError fun err =>
    ((err.with_operation Operation.CreateDir.toStr).with_context "service"
        a.meta.scheme.toStr).with_context "path" path

/-- `read` (line 96): wraps the returned reader and, on failure, also
appends the requested range. -/
def ErrorContextAccessor.read {R BR W BW P BP : Type}
    (a : ErrorContextAccessor R BR W BW P BP) (path : String) (args : OpRead) :
    Except Error (RpRead × ErrorContextWrapper R) :=
  let br := args.range
  (((a.inner.read path args).map fun ro =>
      (ro.1, { scheme := a.meta.scheme, path := path, inner := ro.2 })).mapError fun err =>
    (((err.with_operation Operation.Read.toStr).with_context "service"
        a.meta.scheme.toStr).with_context "path" path).with_context "range" br.toStr)

/-- `write` (line 120): wraps the returned writer. -/
def ErrorContextAccessor.write {R BR W BW P BP : Type}
    (a : ErrorContextAccessor R BR W BW P BP) (path : String) (args : OpWrite) :
    Except Error (RpWrite × ErrorContextWrapper W) :=
  (((a.inner.write path args).map fun ro =>
      (ro.1, { scheme := a.meta.scheme, path := path, inner := ro.2 })).mapError fun err =>
    ((err.with_operation Operation.Write.toStr).with_context "service"
        a.meta.scheme.toStr).with_context "path" path)

/-- `stat` (line 141). -/
def ErrorContextAccessor.stat {R BR W BW P BP : Type}
    (a : ErrorContextAccessor R BR W BW P BP) (path : String) (args : OpStat) :
    Except Error RpStat :=
  (a.inner.stat path args).mapError fun err =>
    ((err.with_operation Operation.Stat.toStr).with_context "service"
        a.meta.scheme.toStr).with_context "path" path

/-- `delete` (line 152). -/
def ErrorContextAccessor.delete {R BR W BW P BP : Type}
    (a : ErrorContextAccessor R BR W BW P BP) (path : String) (args : OpDelete) :
    Except Error RpDelete :=
  (a.inner.delete path args).mapError fun err =>
    ((err.with_operation Operation.Delete.toStr).with_context "service"
        a.meta.scheme.toStr).with_context "path" path

/-- `list` (line 163): wraps the returned pager. -/
def ErrorContextAccessor.list {R BR W BW P BP : Type}
    (a : ErrorContextAccessor R BR W BW P BP) (path : String) (args : OpList) :
    Except Error (RpList × ErrorContextWrapper P) :=
  (((a.inner.list path args).map fun ro =>
      (ro.1, { scheme := a.meta.scheme, path := path, inner := ro.2 })).mapError fun err =>
    ((err.with_operation Operation.List.toStr).with_context "service"
        a.meta.scheme.toStr).with_context "path" path)

/-- `scan` (line 184): wraps the returned pager. -/
def ErrorContextAccessor.scan {R BR W BW P BP : Type}
    (a : ErrorContextAccessor R BR W BW P BP) (path : String) (args : OpScan) :
    Except Error (RpScan × ErrorContextWrapper P) :=
  (((a.inner.scan path args).map fun ro =>
      (ro.1, { scheme := a.meta.scheme, path := path, inner := ro.2 })).mapError fun err =>
    ((err.with_operation Operation.Scan.toStr).with_context "service"
        a.meta.scheme.toStr).with_context "path" path)

/-- `presign` (line 205). -/
def ErrorContextAccessor.presign {R BR W BW P BP : Type}
    (a : ErrorContextAccessor R BR W BW P BP) (path : String) (args : OpPresign) :
    Except Error RpPresign :=
  (a.inner.presign path args).mapError fun err =>
    ((err.with_operation Operation.Presign.toStr).with_context "service"
        a.meta.scheme.toStr).with_context "path" path

/-- `batch` (line 213): on success, annotates each failing per-path entry
with the Delete tag, the scheme, and that entry's own path; on failure of
the batch call itself, appends the Batch tag and the scheme (no path). -/
def ErrorContextAccessor.batch {R BR W BW P BP : Type}
    (a : ErrorContextAccessor R BR W BW P BP) (args : OpBatch) :
    Except Error RpBatch :=
  (((a.inner.batch args).map fun v =>
      v.map fun pr =>
        (pr.1, pr.2.mapError fun err =>
          ((err.with_operation Operation.Delete.toStr).with_context "service"
              a.meta.scheme.toStr).with_context "path" pr.1)).mapError fun err =>
    (err.with_operation Operation.Batch.toStr).with_context "service" a.meta.scheme.toStr)

/-- `blocking_create_dir` (line 239). -/
def ErrorContextAccessor.blocking_create_dir {R BR W BW P BP : Type}
    (a : ErrorContextAccessor R BR W BW P BP) (path : String) (args : OpCreate) :
    Except Error RpCreate :=
  (a.inner.blocking_create_dir path args).mapError fun err =>
    ((err.with_operation Operation.BlockingCreateDir.toStr).with_context "service"
        a.meta.scheme.toStr).with_context "path" path

/-- `blocking_read` (line 247): wraps the returned reader. Unlike `read`,
the source appends no range entry here. -/
def ErrorContextAccessor.blocking_read {R BR W BW P BP : Type}
    (a : ErrorContextAccessor R BR W BW P BP) (path : String) (args : OpRead) :
    Except Error (RpRead × ErrorContextWrapper BR) :=
  (((a.inner.blocking_read path args).map fun ro =>
      (ro.1, { scheme := a.meta.scheme, path := path, inner := ro.2 })).mapError fun err =>
    ((err.with_operation Operation.BlockingRead.toStr).with_context "service"
        a.meta.scheme.toStr).with_context "path" path)

/-- `blocking_write` (line 267): wraps the returned writer. -/
def ErrorContextAccessor.blocking_write {R BR W BW P BP : Type}
    (a : ErrorContextAccessor R BR W BW P BP) (path : String) (args : OpWrite) :
    Except Error (RpWrite × ErrorContextWrapper BW) :=
  (((a.inner.blocking_write path args).map fun ro =>
      (ro.1, { scheme := a.meta.scheme, path := path, inner := ro.2 })).mapError fun err =>
    ((err.with_operation Operation.BlockingWrite.toStr).with_context "service"
        a.meta.scheme.toStr).with_context "path" path)

/-- `blocking_stat` (line 287). -/
def ErrorContextAccessor.blocking_stat {R BR W BW P BP : Type}
    (a : ErrorContextAccessor R BR W BW P BP) (path : String) (args : OpStat) :
    Except Error RpStat :=
  (a.inner.blocking_stat path args).mapError fun err =>
    ((err.with_operation Operation.BlockingStat.toStr).with_context "service"
        a.meta.scheme.toStr).with_context "path" path

/-- `blocking_delete` (line 295). -/
def ErrorContextAccessor.blocking_delete {R BR W BW P BP : Type}
    (a : ErrorContextAccessor R BR W BW P BP) (path : String) (args : OpDelete) :
    Except Error RpDelete :=
  (a.inner.blocking_delete path args).mapError fun err =>
    ((err.with_operation Operation.BlockingDelete.toStr).with_context "service"
        a.meta.scheme.toStr).with_context "path" path

/-- `blocking_list` (line 303): wraps the returned pager. -/
def ErrorContextAccessor.blocking_list {R BR W BW P BP : Type}
    (a : ErrorContextAccessor R BR W BW P BP) (path : String) (args : OpList) :
    Except Error (RpList × ErrorContextWrapper BP) :=
  (((a.inner.blocking_list path args).map fun ro =>
      (ro.1, { scheme := a.meta.scheme, path := path, inner := ro.2 })).mapError fun err =>
    ((err.with_operation Operation.BlockingList.toStr).with_context "service"
        a.meta.scheme.toStr).with_context "path" path)

/-- `blocking_scan` (line 323): wraps the returned pager. -/
def ErrorContextAccessor.blocking_scan {R BR W BW P BP : Type}
    (a : ErrorContextAccessor R BR W BW P BP) (path : String) (args : OpScan) :
    Except Error (RpScan × ErrorContextWrapper BP) :=
  (((a.inner.blocking_scan path args).map fun ro =>
      (ro.1, { scheme := a.meta.scheme, path := path, inner := ro.2 })).mapError fun err =>
    ((err.with_operation Operation.BlockingScan.toStr).with_context "service"
        a.meta.scheme.toStr).with_context "path" path)

/-! ### Stream wrapper methods (error_context.rs lines 350-484)

Each wrapper method delegates to the inner stream and annotates a failure
with the method's tag, the scheme and the path. The source tags the
writer's `abort` failures with `WriteOperation::Append` (line 424); the
embedding reproduces that verbatim. -/

/-- oio Read `poll_read` for the wrapper (line 351). -/
def ErrorContextWrapper.poll_read (w : ErrorContextWrapper OioReader) (buf : Nat) :
    Except Error Nat :=
  (w.inner.poll_read buf).mapError fun err =>
    ((err.with_operation ReadOperation.Read.toStr).with_context "service"
        w.scheme.toStr).with_context "path" w.path

/-- oio Read `poll_seek` (line 359). -/
def ErrorContextWrapper.poll_seek (w : ErrorContextWrapper OioReader) (pos : SeekFrom) :
    Except Error Nat :=
  (w.inner.poll_seek pos).mapError fun err =>
    ((err.with_operation ReadOperation.Seek.toStr).with_context "service"
        w.scheme.toStr).with_context "path" w.path

/-- oio Read `poll_next` (line 367). -/
def ErrorContextWrapper.poll_next (w : ErrorContextWrapper OioReader) :
    Option (Except Error (List Nat)) :=
  w.inner.poll_next.map fun r =>
    r.mapError fun err =>
      ((err.with_operation ReadOperation.Next.toStr).with_context "service"
          w.scheme.toStr).with_context "path" w.path

/-- oio BlockingRead `read` (line 377). -/
def ErrorContextWrapper.blocking_read (w : ErrorContextWrapper OioBlockingReader) (buf : Nat) :
    Except Error Nat :=
  (w.inner.read buf).mapError fun err =>
    ((err.with_operation ReadOperation.BlockingRead.toStr).with_context "service"
        w.scheme.toStr).with_context "path" w.path

/-- oio BlockingRead `seek` (line 385). -/
def ErrorContextWrapper.blocking_seek (w : ErrorContextWrapper OioBlockingReader) (pos : SeekFrom) :
    Except Error Nat :=
  (w.inner.seek pos).mapError fun err =>
    ((err.with_operation ReadOperation.BlockingSeek.toStr).with_context "service"
        w.scheme.toStr).with_context "path" w.path

/-- oio BlockingRead `next` (line 393). -/
def ErrorContextWrapper.blocking_next (w : ErrorContextWrapper OioBlockingReader) :
    Option (Except Error (List Nat)) :=
  w.inner.next.map fun v =>
    v.mapError fun err =>
      ((err.with_operation ReadOperation.BlockingNext.toStr).with_context "service"
          w.scheme.toStr).with_context "path" w.path

/-- oio Write `write` (line 406). -/
def ErrorContextWrapper.write (w : ErrorContextWrapper OioWriter) (bs : List Nat) :
    Except Error Unit :=
  (w.inner.write bs).mapError fun err =>
    ((err.with_operation WriteOperation.Write.toStr).with_context "service"
        w.scheme.toStr).with_context "path" w.path

/-- oio Write `append` (line 414). -/
def ErrorContextWrapper.append (w : ErrorContextWrapper OioWriter) (bs : List Nat) :
    Except Error Unit :=
  (w.inner.append bs).mapError fun err =>
    ((err.with_operation WriteOperation.Append.toStr).with_context "service"
        w.scheme.toStr).with_context "path" w.path

/-- oio Write `abort` (line 422). The source tags this failure with
`WriteOperation::Append`, not `Abort`; the embedding keeps that exactly. -/
def ErrorContextWrapper.abort (w : ErrorContextWrapper OioWriter) :
    Except Error Unit :=
  w.inner.abort.mapError fun err =>
    ((err.with_operation WriteOperation.Append.toStr).with_context "service"
        w.scheme.toStr).with_context "path" w.path

/-- oio Write `close` (line 430). -/
def ErrorContextWrapper.close (w : ErrorContextWrapper OioWriter) :
    Except Error Unit :=
  w.inner.close.mapError fun err =>
    ((err.with_operation WriteOperation.Close.toStr).with_context "service"
        w.scheme.toStr).with_context "path" w.path

/-- oio BlockingWrite `write` (line 440). -/
def ErrorContextWrapper.blocking_write (w : ErrorContextWrapper OioBlockingWriter) (bs : List Nat) :
    Except Error Unit :=
  (w.inner.write bs).mapError fun err =>
    ((err.with_operation WriteOperation.BlockingWrite.toStr).with_context "service"
        w.scheme.toStr).with_context "path" w.path

/-- oio BlockingWrite `append` (line 448). -/
def ErrorContextWrapper.blocking_append (w : ErrorContextWrapper OioBlockingWriter) (bs : List Nat) :
    Except Error Unit :=
  (w.inner.append bs).mapError fun err =>
    ((err.with_operation WriteOperation.BlockingAppend.toStr).with_context "service"
        w.scheme.toStr).with_context "path" w.path

/-- oio BlockingWrite `close` (line 456). -/
def ErrorContextWrapper.blocking_close (w : ErrorContextWrapper OioBlockingWriter) :
    Except Error Unit :=
  w.inner.close.mapError fun err =>
    ((err.with_operation WriteOperation.BlockingClose.toStr).with_context "service"
        w.scheme.toStr).with_context "path" w.path

/-- oio Page `next` (line 467). -/
def ErrorContextWrapper.page_next (w : ErrorContextWrapper OioPager) :
    Except Error (Option (List String)) :=
  w.inner.next.mapError fun err =>
    ((err.with_operation PageOperation.Next.toStr).with_context "service"
        w.scheme.toStr).with_context "path" w.path

/-- oio BlockingPage `next` (line 477). -/
def ErrorContextWrapper.blocking_page_next (w : ErrorContextWrapper OioBlockingPager) :
    Except Error (Option (List String)) :=
  w.inner.next.mapError fun err =>
    ((err.with_operation PageOperation.BlockingNext.toStr).with_context "service"
        w.scheme.toStr).with_context "path" w.path

/-! ### Azure Blob backend (src/core/src/services/azblob/backend.rs)

HTTP responses are abstracted to the fields the analyzed code inspects.
The `err` field of each response is the Error that `parse_error(resp)`
(azblob/error.rs, outside the analyzed sources) would produce for a
non-success status; it is carried as data so the control flow around it
stays exactly the source's. Status codes keep their numeric values
(200 OK, 202 ACCEPTED, 404 NOT_FOUND). -/

/-- The response to `azblob_get_blob_properties`: the status, the Metadata
that `parse_into_metadata` (raw parsing, outside the analyzed sources)
extracts from the headers, and the parsed error for other statuses. -/
structure StatResp where
  status : Nat
  headersMeta : Except Error Metadata
  err : Error

/-- The response to `azblob_delete_blob`. -/
structure DeleteResp where
  status : Nat
  err : Error

/-- The response to `azblob_batch_delete`: the status, the CONTENT_TYPE
header, the per-path outcome the multipart body encodes (the body is
abstracted to the outcomes it carries, since the multipart decoder is
outside the analyzed sources), and the parsed error for other statuses. -/
structure BatchResp where
  status : Nat
  contentType : Option String
  outcomes : String → Except Error Unit
  err : Error

/-- The backend core: the configured root and container plus the three
request functions the modelled verbs send through (each models the
sign-and-send round trip of one endpoint; a transport failure is the
`Except.error` case). -/
structure AzblobCore where
  root : String
  container : String
  azblob_get_blob_properties : String → Except Error StatResp
  azblob_delete_blob : String → Except Error DeleteResp
  azblob_batch_delete : List String → Except Error BatchResp

/-- backend.rs line 51. -/
def AZBLOB_BATCH_LIMIT : Nat := 256

/-- `info` (line 449): scheme Azblob, the configured root and container,
the batch limit, the capability set Read|Write|List|Scan|Batch|Copy and
the ReadStreamable hint. -/
def AzblobBackend.info (core : AzblobCore) : AccessorInfo :=
  { scheme := .Azblob
    root := core.root
    name := core.container
    max_batch_operations := AZBLOB_BATCH_LIMIT
    capabilities := [.Read, .Write, .List, .Scan, .Batch, .Copy]
    hints := [.ReadStreamable] }

/-- The writer `AzblobBackend::write` hands out (azblob/writer.rs holds
only its construction from the core, the write arguments and the path). -/
structure AzblobWriter where
  core : AzblobCore
  op : OpWrite
  path : String

/-- `write` (line 499): an append-flagged request fails with Unsupported
before anything is sent; otherwise the writer is returned immediately. -/
def AzblobBackend.write (core : AzblobCore) (path : String) (args : OpWrite) :
    Except Error (RpWrite × AzblobWriter) :=
  if args.append then
    .error (Error.new .Unsupported "append write is not supported")
  else
    .ok ((), { core := core, op := args, path := path })

/-- `stat` (line 527): the root path short-circuits to a directory; a 200
parses the headers; a 404 on a path ending in a slash is a directory;
anything else is the parsed error. -/
def AzblobBackend.stat (core : AzblobCore) (path : String) (_args : OpStat) :
    Except Error RpStat :=
  if path = "/" then
    .ok (Metadata.new EntryMode.DIR)
  else
    match core.azblob_get_blob_properties path with
    | .error e => .error e
    | .ok resp =>
      if resp.status = 200 then
        resp.headersMeta
      else if resp.status = 404 && path.endsWith "/" then
        .ok (Metadata.new EntryMode.DIR)
      else
        .error resp.err

/-- `delete` (line 546): both 202 ACCEPTED and 404 NOT_FOUND acknowledge
the delete; anything else is the parsed error. -/
def AzblobBackend.delete (core : AzblobCore) (path : String) (_args : OpDelete) :
    Except Error RpDelete :=
  match core.azblob_delete_blob path with
  | .error e => .error e
  | .ok resp =>
    if resp.status = 202 || resp.status = 404 then
      .ok ()
    else
      .error resp.err

/-- Modelled from the spec: `parse_batch_delete_response`
(azblob/batch.rs, not among the analyzed sources) decodes the multipart
body into one independent success-or-Error entry for every submitted path
(spec sections 4.6 and 8); the body is abstracted to the per-path outcome
it encodes, and the boundary string is only used to frame the decoding. -/
def parse_batch_delete_response (_boundary : String)
    (outcomes : String → Except Error Unit) (paths : List String) :
    Except Error (List (String × Except Error Unit)) :=
  .ok (paths.map fun p => (p, outcomes p))

/-- Whether the pattern is an initial segment of the character list. -/
def startsWithChars : List Char → List Char → Bool
  | [], _ => true
  | _ :: _, [] => false
  | p :: ps, c :: cs => p = c && startsWithChars ps cs

/-- Left-to-right, non-overlapping split on a pattern, the semantics of
Rust's `str::split` with a string pattern; the fuel (always at least the
input length) only makes the recursion structural. -/
def rustSplitAux (sep : List Char) : Nat → List Char → List Char → List (List Char)
  | _, [], cur => [cur.reverse]
  | 0, s, cur => [cur.reverse ++ s]
  | fuel + 1, c :: cs, cur =>
    if startsWithChars sep (c :: cs) && sep.length > 0 then
      cur.reverse :: rustSplitAux sep fuel ((c :: cs).drop sep.length) []
    else
      rustSplitAux sep fuel cs (c :: cur)

/-- Rust's `content_type.split("boundary=").collect::<Vec<_>>()`. -/
def rustSplit (s sep : String) : List String :=
  (rustSplitAux sep.toList (s.toList.length + 1) s.toList []).map fun cs => String.mk cs

/-- `batch` (line 579): reject more paths than the limit outright, send
one batch request, demand 202, extract the multipart boundary from
CONTENT_TYPE by splitting on "boundary=" and taking element 1, then
decode one entry per path. -/
def AzblobBackend.batch (core : AzblobCore) (args : OpBatch) :
    Except Error RpBatch :=
  let paths := args.ops.map Prod.fst
  if paths.length > AZBLOB_BATCH_LIMIT then
    .error (Error.new .Unsupported "batch delete limit exceeded")
  else
    match core.azblob_batch_delete paths with
    | .error e => .error e
    | .ok resp =>
      if resp.status ≠ 202 then
        .error resp.err
      else
        match resp.contentType with
        | none => .error (Error.new .Unexpected "response data should have CONTENT_TYPE header")
        | some ct =>
          match (rustSplit ct "boundary=")[1]? with
          | none => .error (Error.new .Unexpected "No boundary message provided in CONTENT_TYPE")
          | some boundary =>
            match parse_batch_delete_response boundary resp.outcomes paths with
            | .error e => .error e
            | .ok results => .ok results

/-! ### Foreign-function binding (src/bindings/java/src/lib.rs)

The raw-pointer surface is modelled by values: a null pointer is `none`,
a non-null operator handle is `some op`, and the `*mut c_int` out-param is
`none` when left untouched and `some 1` after the binding writes 1. A
Rust panic (an `unwrap` of an Err) is the `panicked` outcome, carrying
the panic payload text. -/

inductive RustOutcome (α : Type) where
  | ret (value : α)
  | panicked (msg : String)
  deriving DecidableEq

/-- A configuration map, as the binding builds it from the string array
(a key-value association list; lookups take the first match). -/
abbrev ConfigMap := List (String × String)

/-- The operator handle a successful construction yields; only its
identity matters to the binding's control flow. -/
structure OperatorModel where
  scheme : Scheme
  deriving DecidableEq

/-- `build_operator` (lib.rs line 151): each supported scheme builds via
`Operator::from_map::<...>(map).unwrap().finish()` — the `unwrap` turns a
construction failure into a panic — and every other scheme returns an
`Unexpected` "Scheme not supported" error. The scheme-indexed `from_map`
argument stands for `Operator::from_map` at each backend type. -/
def build_operator (from_map : Scheme → ConfigMap → Except Error OperatorModel)
    (scheme : Scheme) (map : ConfigMap) : RustOutcome (Except Error OperatorModel) :=
  match scheme with
  | .Azblob | .Azdfs | .Fs | .Gcs | .Ghac | .Http | .Ipmfs | .Memory
  | .Obs | .Oss | .S3 | .Webdav | .Webhdfs =>
    match from_map scheme map with
    | .ok op => .ret (.ok op)
    | .error e => .panicked e.message
  | _ => .ret (.error (Error.new .Unexpected "Scheme not supported"))

/-- The schemes `build_operator` dispatches to a backend (the match arms
of lib.rs lines 158-172); everything else falls to the wildcard arm. -/
def bindingSupported : Scheme → Bool
  | .Azblob | .Azdfs | .Fs | .Gcs | .Ghac | .Http | .Ipmfs | .Memory
  | .Obs | .Oss | .S3 | .Webdav | .Webhdfs => true
  | _ => false

/-- `getOperator` (lib.rs line 53): parse the scheme string; on parse
failure or on an Err from `build_operator`, write 1 into the out-param and
return null; on success return the non-null handle with the out-param
untouched; a panic inside `build_operator` propagates. -/
def getOperator (from_map : Scheme → ConfigMap → Except Error OperatorModel)
    (schemeStr : String) (map : ConfigMap) :
    RustOutcome (Option OperatorModel × Option Int) :=
  match Scheme.from_str schemeStr with
  | some scheme =>
    match build_operator from_map scheme map with
    | .ret (.ok op) => .ret (some op, none)
    | .ret (.error _) => .ret (none, some 1)
    | .panicked m => .panicked m
  | none => .ret (none, some 1)

/-- `read` (lib.rs line 96): a successful read of NUL-free content is
returned as that content; content with an interior NUL byte panics inside
`CString::new(..).unwrap()`; a failed read is replaced by the empty
string via `unwrap_or_else`, discarding the Error entirely. -/
def ffiRead (readResult : Except Error (List Nat)) : RustOutcome (List Nat) :=
  match readResult with
  | .ok content => if content.contains 0 then .panicked "NulError" else .ret content
  | .error _ => .ret []

/-- `write` (lib.rs line 88): the result is `unwrap`ped, so a failed
write panics with the error's text instead of surfacing the Error. -/
def ffiWrite (writeResult : Except Error Unit) : RustOutcome Unit :=
  match writeResult with
  | .ok () => .ret ()
  | .error e => .panicked e.message

/-! ### The azblob builder (backend.rs lines 129-432), for the binding's
construction path. -/

/-- The builder's fields (backend.rs line 129). -/
structure AzblobBuilder where
  root : Option String
  container : String
  endpoint : Option String
  account_name : Option String
  account_key : Option String
  sas_token : Option String
  deriving DecidableEq

def AzblobBuilder.default : AzblobBuilder :=
  { root := none, container := "", endpoint := none, account_name := none
    account_key := none, sas_token := none }

/-- `root` setter (line 166): only a non-empty value is stored. -/
def AzblobBuilder.setRoot (b : AzblobBuilder) (v : String) : AzblobBuilder :=
  if v = "" then b else { b with root := some v }

/-- `container` setter (line 175): stored unconditionally. -/
def AzblobBuilder.setContainer (b : AzblobBuilder) (v : String) : AzblobBuilder :=
  { b with container := v }

/-- `endpoint` setter (line 187): a non-empty value is stored with
trailing slashes trimmed. -/
def AzblobBuilder.setEndpoint (b : AzblobBuilder) (v : String) : AzblobBuilder :=
  if v = "" then b else { b with endpoint := some (v.dropRightWhile (fun c => c = '/')) }

/-- `account_name` setter (line 200). -/
def AzblobBuilder.setAccountName (b : AzblobBuilder) (v : String) : AzblobBuilder :=
  if v = "" then b else { b with account_name := some v }

/-- `account_key` setter (line 212). -/
def AzblobBuilder.setAccountKey (b : AzblobBuilder) (v : String) : AzblobBuilder :=
  if v = "" then b else { b with account_key := some v }

/-- `sas_token` setter (line 227). -/
def AzblobBuilder.setSasToken (b : AzblobBuilder) (v : String) : AzblobBuilder :=
  if v = "" then b else { b with sas_token := some v }

/-- `from_map` (line 335): apply each setter to the map entry when
present. -/
def AzblobBuilder.from_map (map : ConfigMap) : AzblobBuilder :=
  let b := AzblobBuilder.default
  let b := match map.lookup "root" with
    | some v => b.setRoot v
    | none => b
  let b := match map.lookup "container" with
    | some v => b.setContainer v
    | none => b
  let b := match map.lookup "endpoint" with
    | some v => b.setEndpoint v
    | none => b
  let b := match map.lookup "account_name" with
    | some v => b.setAccountName v
    | none => b
  let b := match map.lookup "account_key" with
    | some v => b.setAccountKey v
    | none => b
  match map.lookup "sas_token" with
  | some v => b.setSasToken v
  | none => b

/-- Modelled from the spec (section 4.4): `normalize_root` canonicalizes
the root to have a leading and a trailing slash (the helper lives in the
core raw module, outside the analyzed sources). -/
def normalize_root (v : String) : String :=
  let cs := v.toList
  let cs := match cs with
    | [] => ['/']
    | c :: _ => if c = '/' then cs else '/' :: cs
  let cs := if cs.getLast? = some '/' then cs else cs ++ ['/']
  String.mk cs

/-- The part of the built backend the construction path determines. -/
structure AzblobCoreConfig where
  root : String
  container : String
  endpoint : String
  deriving DecidableEq

/-- `build` (line 348): an empty container fails with ConfigInvalid
"container is empty", a missing endpoint with ConfigInvalid "endpoint is
empty", each tagged with `Builder::build` and the azblob service context;
otherwise the backend configuration is produced. (The HTTP client and
credential loader construction, outside the analyzed sources, are taken
to succeed.) -/
def AzblobBuilder.build (b : AzblobBuilder) : Except Error AzblobCoreConfig :=
  let root := normalize_root (b.root.getD "")
  if b.container = "" then
    .error (((Error.new .ConfigInvalid "container is empty").with_operation
        "Builder::build").with_context "service" Scheme.Azblob.toStr)
  else
    match b.endpoint with
    | none =>
      .error (((Error.new .ConfigInvalid "endpoint is empty").with_operation
          "Builder::build").with_context "service" Scheme.Azblob.toStr)
    | some ep => .ok { root := root, container := b.container, endpoint := ep }

/-- Modelled from the spec (sections 2 and 9): `Operator::from_map` for
the azblob backend builds the builder from the map and validates it once
at build time, failing fast with ConfigInvalid before any I/O; on success
the finished operator owns the layered accessor chain. -/
def azblobOperatorFromMap (map : ConfigMap) : Except Error OperatorModel :=
  (AzblobBuilder.from_map map).build.map fun _ => { scheme := Scheme.Azblob }

/-- The scheme-indexed construction function the binding's model is
instantiated with: azblob uses the builder translated from the analyzed
sources; the other backends' builders are outside the analyzed sources
and are taken to succeed (their behavior is irrelevant to the azblob
construction path under study). -/
def bindingFromMap : Scheme → ConfigMap → Except Error OperatorModel :=
  fun scheme map =>
    match scheme with
    | .Azblob => azblobOperatorFromMap map
    | _ => .ok { scheme := scheme }

/-! ### Specification-side forms and concrete instances -/

/-- Follows the spec's words (sections 4.5 and 7): what a failing call
must come back as — the same Kind and message, the operation tag set, and
the given context entries appended in order to the existing trail. -/
def specAnnotated (tag : String) (entries : List (String × String)) (e : Error) : Error :=
  { e with operation := some tag, context := e.context ++ entries }

/-- Whether an Except carries a success. -/
def exceptIsOk {ε α : Type} : Except ε α → Bool
  | .ok _ => true
  | .error _ => false

/-- A sample inner error, used by the concrete instances below. -/
def sampleErr : Error := Error.new .Unexpected "boom"

/-- A concrete inner accessor every verb of which fails with `sampleErr`. -/
def failAccessor : Accessor Unit Unit Unit Unit Unit Unit :=
  { info := { scheme := .Azblob, root := "/", name := "test"
              max_batch_operations := 256
              capabilities := [.Read, .Write, .List, .Scan, .Batch, .Copy]
              hints := [.ReadStreamable] }
    create_dir := fun _ _ => .error sampleErr
    read := fun _ _ => .error sampleErr
    write := fun _ _ => .error sampleErr
    stat := fun _ _ => .error sampleErr
    delete := fun _ _ => .error sampleErr
    list := fun _ _ => .error sampleErr
    scan := fun _ _ => .error sampleErr
    presign := fun _ _ => .error sampleErr
    batch := fun _ => .error sampleErr
    blocking_create_dir := fun _ _ => .error sampleErr
    blocking_read := fun _ _ => .error sampleErr
    blocking_write := fun _ _ => .error sampleErr
    blocking_stat := fun _ _ => .error sampleErr
    blocking_delete := fun _ _ => .error sampleErr
    blocking_list := fun _ _ => .error sampleErr
    blocking_scan := fun _ _ => .error sampleErr }

/-- A concrete inner accessor whose batch call succeeds with one
succeeding and one failing entry. -/
def okBatchAccessor : Accessor Unit Unit Unit Unit Unit Unit :=
  { failAccessor with batch := fun _ => .ok [("x", .ok ()), ("y", .error sampleErr)] }

/-- A concrete writer stream every method of which fails with `sampleErr`. -/
def failWriter : OioWriter :=
  { write := fun _ => .error sampleErr
    append := fun _ => .error sampleErr
    abort := .error sampleErr
    close := .error sampleErr }

/-- A concrete batch response: 202, a boundary-carrying CONTENT_TYPE, and
a body in which path "b" failed and every other path succeeded. -/
def sampleBatchResp : BatchResp :=
  { status := 202
    contentType := some "multipart/mixed; boundary=batch_abc"
    outcomes := fun p => if p = "b" then .error sampleErr else .ok ()
    err := sampleErr }

/-- A concrete backend core: stat requests fail at transport, delete
requests come back 404, batch requests come back as `sampleBatchResp`. -/
def sampleCore : AzblobCore :=
  { root := "/"
    container := "test"
    azblob_get_blob_properties := fun _ => .error sampleErr
    azblob_delete_blob := fun _ => .ok { status := 404, err := sampleErr }
    azblob_batch_delete := fun _ => .ok sampleBatchResp }

/-! ### Theorems -/

/-- C1 (amended): for every verb the ErrorContextLayer overrides and that
takes a path — create_dir, read, write, stat, delete, list, scan, presign
and their blocking duals — a failing inner call comes back as the inner
error with that verb's operation tag set and context entries for the
backend scheme and the path appended (reads also append the requested
range), the Kind and message unchanged; the batch verb appends only its
operation tag and the scheme, and no path entry. Each conjunct equates
the layered verb, translated from the source, with the spec-side
`specAnnotated` form applied over the inner result. -/
theorem errorContext_call_failure_annotation
    {R BR W BW P BP : Type} (inner : Accessor R BR W BW P BP) (path : String)
    (argsC : OpCreate) (argsR : OpRead) (argsW : OpWrite) (argsS : OpStat)
    (argsD : OpDelete) (argsL : OpList) (argsSc : OpScan) (argsP : OpPresign)
    (argsB : OpBatch) :
    (ErrorContextLayer.layer inner).create_dir path argsC =
      (inner.create_dir path argsC).mapError
        (specAnnotated Operation.CreateDir.toStr
          [("service", inner.info.scheme.toStr), ("path", path)])
  ∧ (ErrorContextLayer.layer inner).read path argsR =
      ((inner.read path argsR).map fun ro =>
          (ro.1, { scheme := inner.info.scheme, path := path, inner := ro.2 })).mapError
        (specAnnotated Operation.Read.toStr
          [("service", inner.info.scheme.toStr), ("path", path),
           ("range", argsR.range.toStr)])
  ∧ (ErrorContextLayer.layer inner).write path argsW =
      ((inner.write path argsW).map fun ro =>
          (ro.1, { scheme := inner.info.scheme, path := path, inner := ro.2 })).mapError
        (specAnnotated Operation.Write.toStr
          [("service", inner.info.scheme.toStr), ("path", path)])
  ∧ (ErrorContextLayer.layer inner).stat path argsS =
      (inner.stat path argsS).mapError
        (specAnnotated Operation.Stat.toStr
          [("service", inner.info.scheme.toStr), ("path", path)])
  ∧ (ErrorContextLayer.layer inner).delete path argsD =
      (inner.delete path argsD).mapError
        (specAnnotated Operation.Delete.toStr
          [("service", inner.info.scheme.toStr), ("path", path)])
  ∧ (ErrorContextLayer.layer inner).list path argsL =
      ((inner.list path argsL).map fun ro =>
          (ro.1, { scheme := inner.info.scheme, path := path, inner := ro.2 })).mapError
        (specAnnotated Operation.List.toStr
          [("service", inner.info.scheme.toStr), ("path", path)])
  ∧ (ErrorContextLayer.layer inner).scan path argsSc =
      ((inner.scan path argsSc).map fun ro =>
          (ro.1, { scheme := inner.info.scheme, path := path, inner := ro.2 })).mapError
        (specAnnotated Operation.Scan.toStr
          [("service", inner.info.scheme.toStr), ("path", path)])
  ∧ (ErrorContextLayer.layer inner).presign path argsP =
      (inner.presign path argsP).mapError
        (specAnnotated Operation.Presign.toStr
          [("service", inner.info.scheme.toStr), ("path", path)])
  ∧ (ErrorContextLayer.layer inner).batch argsB =
      ((inner.batch argsB).map fun v =>
          v.map fun pr =>
            (pr.1, pr.2.mapError
              (specAnnotated Operation.Delete.toStr
                [("service", inner.info.scheme.toStr), ("path", pr.1)]))).mapError
        (specAnnotated Operation.Batch.toStr [("service", inner.info.scheme.toStr)])
  ∧ (ErrorContextLayer.layer inner).blocking_create_dir path argsC =
      (inner.blocking_create_dir path argsC).mapError
        (specAnnotated Operation.BlockingCreateDir.toStr
          [("service", inner.info.scheme.toStr), ("path", path)])
  ∧ (ErrorContextLayer.layer inner).blocking_read path argsR =
      ((inner.blocking_read path argsR).map fun ro =>
          (ro.1, { scheme := inner.info.scheme, path := path, inner := ro.2 })).mapError
        (specAnnotated Operation.BlockingRead.toStr
          [("service", inner.info.scheme.toStr), ("path", path)])
  ∧ (ErrorContextLayer.layer inner).blocking_write path argsW =
      ((inner.blocking_write path argsW).map fun ro =>
          (ro.1, { scheme := inner.info.scheme, path := path, inner := ro.2 })).mapError
        (specAnnotated Operation.BlockingWrite.toStr
          [("service", inner.info.scheme.toStr), ("path", path)])
  ∧ (ErrorContextLayer.layer inner).blocking_stat path argsS =
      (inner.blocking_stat path argsS).mapError
        (specAnnotated Operation.BlockingStat.toStr
          [("service", inner.info.scheme.toStr), ("path", path)])
  ∧ (ErrorContextLayer.layer inner).blocking_delete path argsD =
      (inner.blocking_delete path argsD).mapError
        (specAnnotated Operation.BlockingDelete.toStr
          [("service", inner.info.scheme.toStr), ("path", path)])
  ∧ (ErrorContextLayer.layer inner).blocking_list path argsL =
      ((inner.blocking_list path argsL).map fun ro =>
          (ro.1, { scheme := inner.info.scheme, path := path, inner := ro.2 })).mapError
        (specAnnotated Operation.BlockingList.toStr
          [("service", inner.info.scheme.toStr), ("path", path)])
  ∧ (ErrorContextLayer.layer inner).blocking_scan path argsSc =
      ((inner.blocking_scan path argsSc).map fun ro =>
          (ro.1, { scheme := inner.info.scheme, path := path, inner := ro.2 })).mapError
        (specAnnotated Operation.BlockingScan.toStr
          [("service", inner.info.scheme.toStr), ("path", path)]) := by
  refine ⟨?_, ?_, ?_, ?_, ?_, ?_, ?_, ?_, ?_, ?_, ?_, ?_, ?_, ?_, ?_, ?_⟩
  · cases h : inner.create_dir path argsC <;>
      simp [ErrorContextLayer.layer, ErrorContextAccessor.create_dir, h,
        Error.with_operation, Error.with_context, specAnnotated, Except.mapError]
  · cases h : inner.read path argsR <;>
      simp [ErrorContextLayer.layer, ErrorContextAccessor.read, h,
        Error.with_operation, Error.with_context, specAnnotated, Except.mapError, Except.map]
  · cases h : inner.write path argsW <;>
      simp [ErrorContextLayer.layer, ErrorContextAccessor.write, h,
        Error.with_operation, Error.with_context, specAnnotated, Except.mapError, Except.map]
  · cases h : inner.stat path argsS <;>
      simp [ErrorContextLayer.layer, ErrorContextAccessor.stat, h,
        Error.with_operation, Error.with_context, specAnnotated, Except.mapError]
  · cases h : inner.delete path argsD <;>
      simp [ErrorContextLayer.layer, ErrorContextAccessor.delete, h,
        Error.with_operation, Error.with_context, specAnnotated, Except.mapError]
  · cases h : inner.list path argsL <;>
      simp [ErrorContextLayer.layer, ErrorContextAccessor.list, h,
        Error.with_operation, Error.with_context, specAnnotated, Except.mapError, Except.map]
  · cases h : inner.scan path argsSc <;>
      simp [ErrorContextLayer.layer, ErrorContextAccessor.scan, h,
        Error.with_operation, Error.with_context, specAnnotated, Except.mapError, Except.map]
  · cases h : inner.presign path argsP <;>
      simp [ErrorContextLayer.layer, ErrorContextAccessor.presign, h,
        Error.with_operation, Error.with_context, specAnnotated, Except.mapError]
  · cases h : inner.batch argsB <;>
      simp [ErrorContextLayer.layer, ErrorContextAccessor.batch, h,
        Error.with_operation, Error.with_context, specAnnotated, Except.mapError, Except.map]
  · cases h : inner.blocking_create_dir path argsC <;>
      simp [ErrorContextLayer.layer, ErrorContextAccessor.blocking_create_dir, h,
        Error.with_operation, Error.with_context, specAnnotated, Except.mapError]
  · cases h : inner.blocking_read path argsR <;>
      simp [ErrorContextLayer.layer, ErrorContextAccessor.blocking_read, h,
        Error.with_operation, Error.with_context, specAnnotated, Except.mapError, Except.map]
  · cases h : inner.blocking_write path argsW <;>
      simp [ErrorContextLayer.layer, ErrorContextAccessor.blocking_write, h,
        Error.with_operation, Error.with_context, specAnnotated, Except.mapError, Except.map]
  · cases h : inner.blocking_stat path argsS <;>
      simp [ErrorContextLayer.layer, ErrorContextAccessor.blocking_stat, h,
        Error.with_operation, Error.with_context, specAnnotated, Except.mapError]
  · cases h : inner.blocking_delete path argsD <;>
      simp [ErrorContextLayer.layer, ErrorContextAccessor.blocking_delete, h,
        Error.with_operation, Error.with_context, specAnnotated, Except.mapError]
  · cases h : inner.blocking_list path argsL <;>
      simp [ErrorContextLayer.layer, ErrorContextAccessor.blocking_list, h,
        Error.with_operation, Error.with_context, specAnnotated, Except.mapError, Except.map]
  · cases h : inner.blocking_scan path argsSc <;>
      simp [ErrorContextLayer.layer, ErrorContextAccessor.blocking_scan, h,
        Error.with_operation, Error.with_context, specAnnotated, Except.mapError, Except.map]

/-- C1 counterexample: the batch verb is a verb of the wrapped accessor,
yet its failure annotation carries no "path" context entry at all — at a
concrete inner accessor whose batch fails, the returned error's context
is exactly [("service", "azblob")], and no entry of it has key "path". -/
theorem errorContext_batch_failure_lacks_path_entry :
    (ErrorContextLayer.layer failAccessor).batch { ops := [("a", ())] } =
      Except.error { kind := .Unexpected, message := "boom",
                     operation := some "Batch", context := [("service", "azblob")] } ∧
    ([("service", "azblob")] : List (String × String)).all (fun kv => kv.1 != "path") = true := by
  exact ⟨rfl, by decide⟩

/-- C2: evaluation at the failing input. The writer's `abort`, wrapped by
the ErrorContextLayer, tags its failure with the tag of the `append`
stream method — the same tag a failing `append` carries — instead of an
abort-specific tag, so the operation tag does not identify which stream
method failed (error_context.rs line 424 uses `WriteOperation::Append`
inside `abort`). -/
theorem errorContext_abort_failure_tagged_as_append :
    ({ scheme := .Azblob, path := "p", inner := failWriter } :
        ErrorContextWrapper OioWriter).abort =
      Except.error { kind := .Unexpected, message := "boom",
                     operation := some "WriterAppend",
                     context := [("service", "azblob"), ("path", "p")] } ∧
    ({ scheme := .Azblob, path := "p", inner := failWriter } :
        ErrorContextWrapper OioWriter).append [7] =
      Except.error { kind := .Unexpected, message := "boom",
                     operation := some "WriterAppend",
                     context := [("service", "azblob"), ("path", "p")] } ∧
    WriteOperation.Append.toStr ≠ WriteOperation.Abort.toStr := by
  exact ⟨rfl, rfl, by decide⟩

/-- C3: the ErrorContextLayer is transparent on success. Its `metadata`
is exactly the inner accessor's info (so no capability or hint the inner
reports is hidden); every verb returns success exactly when the inner
verb does, with the same response value, stream objects being wrapped in
the error-annotating proxy and nothing else; and every wrapped stream
method succeeds exactly when the inner stream method does, with the same
value. -/
theorem errorContext_transparent_on_success
    {R BR W BW P BP : Type} (inner : Accessor R BR W BW P BP) :
    (ErrorContextLayer.layer inner).metadata = inner.info
  ∧ (∀ path args v, (ErrorContextLayer.layer inner).create_dir path args = .ok v
      ↔ inner.create_dir path args = .ok v)
  ∧ (∀ path args rp os, (ErrorContextLayer.layer inner).read path args =
        .ok (rp, { scheme := inner.info.scheme, path := path, inner := os })
      ↔ inner.read path args = .ok (rp, os))
  ∧ (∀ path args rp os, (ErrorContextLayer.layer inner).write path args =
        .ok (rp, { scheme := inner.info.scheme, path := path, inner := os })
      ↔ inner.write path args = .ok (rp, os))
  ∧ (∀ path args v, (ErrorContextLayer.layer inner).stat path args = .ok v
      ↔ inner.stat path args = .ok v)
  ∧ (∀ path args v, (ErrorContextLayer.layer inner).delete path args = .ok v
      ↔ inner.delete path args = .ok v)
  ∧ (∀ path args rp os, (ErrorContextLayer.layer inner).list path args =
        .ok (rp, { scheme := inner.info.scheme, path := path, inner := os })
      ↔ inner.list path args = .ok (rp, os))
  ∧ (∀ path args rp os, (ErrorContextLayer.layer inner).scan path args =
        .ok (rp, { scheme := inner.info.scheme, path := path, inner := os })
      ↔ inner.scan path args = .ok (rp, os))
  ∧ (∀ path args v, (ErrorContextLayer.layer inner).presign path args = .ok v
      ↔ inner.presign path args = .ok v)
  ∧ (∀ path args v, (ErrorContextLayer.layer inner).blocking_create_dir path args = .ok v
      ↔ inner.blocking_create_dir path args = .ok v)
  ∧ (∀ path args rp os, (ErrorContextLayer.layer inner).blocking_read path args =
        .ok (rp, { scheme := inner.info.scheme, path := path, inner := os })
      ↔ inner.blocking_read path args = .ok (rp, os))
  ∧ (∀ path args rp os, (ErrorContextLayer.layer inner).blocking_write path args =
        .ok (rp, { scheme := inner.info.scheme, path := path, inner := os })
      ↔ inner.blocking_write path args = .ok (rp, os))
  ∧ (∀ path args v, (ErrorContextLayer.layer inner).blocking_stat path args = .ok v
      ↔ inner.blocking_stat path args = .ok v)
  ∧ (∀ path args v, (ErrorContextLayer.layer inner).blocking_delete path args = .ok v
      ↔ inner.blocking_delete path args = .ok v)
  ∧ (∀ path args rp os, (ErrorContextLayer.layer inner).blocking_list path args =
        .ok (rp, { scheme := inner.info.scheme, path := path, inner := os })
      ↔ inner.blocking_list path args = .ok (rp, os))
  ∧ (∀ path args rp os, (ErrorContextLayer.layer inner).blocking_scan path args =
        .ok (rp, { scheme := inner.info.scheme, path := path, inner := os })
      ↔ inner.blocking_scan path args = .ok (rp, os))
  ∧ (∀ (s : Scheme) (p : String) (r : OioReader) (n k : Nat),
      ({ scheme := s, path := p, inner := r } :
          ErrorContextWrapper OioReader).poll_read n = .ok k ↔ r.poll_read n = .ok k)
  ∧ (∀ (s : Scheme) (p : String) (r : OioReader) (pos : SeekFrom) (k : Nat),
      ({ scheme := s, path := p, inner := r } :
          ErrorContextWrapper OioReader).poll_seek pos = .ok k ↔ r.poll_seek pos = .ok k)
  ∧ (∀ (s : Scheme) (p : String) (r : OioReader),
      ({ scheme := s, path := p, inner := r } :
          ErrorContextWrapper OioReader).poll_next = none ↔ r.poll_next = none)
  ∧ (∀ (s : Scheme) (p : String) (r : OioReader) (bs : List Nat),
      ({ scheme := s, path := p, inner := r } :
          ErrorContextWrapper OioReader).poll_next = some (.ok bs)
        ↔ r.poll_next = some (.ok bs))
  ∧ (∀ (s : Scheme) (p : String) (r : OioBlockingReader) (n k : Nat),
      ({ scheme := s, path := p, inner := r } :
          ErrorContextWrapper OioBlockingReader).blocking_read n = .ok k ↔ r.read n = .ok k)
  ∧ (∀ (s : Scheme) (p : String) (r : OioBlockingReader) (pos : SeekFrom) (k : Nat),
      ({ scheme := s, path := p, inner := r } :
          ErrorContextWrapper OioBlockingReader).blocking_seek pos = .ok k ↔ r.seek pos = .ok k)
  ∧ (∀ (s : Scheme) (p : String) (r : OioBlockingReader),
      ({ scheme := s, path := p, inner := r } :
          ErrorContextWrapper OioBlockingReader).blocking_next = none ↔ r.next = none)
  ∧ (∀ (s : Scheme) (p : String) (r : OioBlockingReader) (bs : List Nat),
      ({ scheme := s, path := p, inner := r } :
          ErrorContextWrapper OioBlockingReader).blocking_next = some (.ok bs)
        ↔ r.next = some (.ok bs))
  ∧ (∀ (s : Scheme) (p : String) (w : OioWriter) (bs : List Nat),
      ({ scheme := s, path := p, inner := w } :
          ErrorContextWrapper OioWriter).write bs = .ok () ↔ w.write bs = .ok ())
  ∧ (∀ (s : Scheme) (p : String) (w : OioWriter) (bs : List Nat),
      ({ scheme := s, path := p, inner := w } :
          ErrorContextWrapper OioWriter).append bs = .ok () ↔ w.append bs = .ok ())
  ∧ (∀ (s : Scheme) (p : String) (w : OioWriter),
      ({ scheme := s, path := p, inner := w } :
          ErrorContextWrapper OioWriter).abort = .ok () ↔ w.abort = .ok ())
  ∧ (∀ (s : Scheme) (p : String) (w : OioWriter),
      ({ scheme := s, path := p, inner := w } :
          ErrorContextWrapper OioWriter).close = .ok () ↔ w.close = .ok ())
  ∧ (∀ (s : Scheme) (p : String) (w : OioBlockingWriter) (bs : List Nat),
      ({ scheme := s, path := p, inner := w } :
          ErrorContextWrapper OioBlockingWriter).blocking_write bs = .ok ()
        ↔ w.write bs = .ok ())
  ∧ (∀ (s : Scheme) (p : String) (w : OioBlockingWriter) (bs : List Nat),
      ({ scheme := s, path := p, inner := w } :
          ErrorContextWrapper OioBlockingWriter).blocking_append bs = .ok ()
        ↔ w.append bs = .ok ())
  ∧ (∀ (s : Scheme) (p : String) (w : OioBlockingWriter),
      ({ scheme := s, path := p, inner := w } :
          ErrorContextWrapper OioBlockingWriter).blocking_close = .ok ()
        ↔ w.close = .ok ())
  ∧ (∀ (s : Scheme) (p : String) (pg : OioPager) (v : Option (List String)),
      ({ scheme := s, path := p, inner := pg } :
          ErrorContextWrapper OioPager).page_next = .ok v ↔ pg.next = .ok v)
  ∧ (∀ (s : Scheme) (p : String) (pg : OioBlockingPager) (v : Option (List String)),
      ({ scheme := s, path := p, inner := pg } :
          ErrorContextWrapper OioBlockingPager).blocking_page_next = .ok v
        ↔ pg.next = .ok v) := by
  refine ⟨rfl, ?_, ?_, ?_, ?_, ?_, ?_, ?_, ?_, ?_, ?_, ?_, ?_, ?_, ?_, ?_,
    ?_, ?_, ?_, ?_, ?_, ?_, ?_, ?_, ?_, ?_, ?_, ?_, ?_, ?_, ?_, ?_, ?_⟩
  · intro path args v
    cases h : inner.create_dir path args <;>
      simp [ErrorContextLayer.layer, ErrorContextAccessor.create_dir, h, Except.mapError]
  · intro path args rp os
    cases h : inner.read path args <;>
      simp [ErrorContextLayer.layer, ErrorContextAccessor.read, h,
        Except.mapError, Except.map, Prod.ext_iff]
  · intro path args rp os
    cases h : inner.write path args <;>
      simp [ErrorContextLayer.layer, ErrorContextAccessor.write, h,
        Except.mapError, Except.map, Prod.ext_iff]
  · intro path args v
    cases h : inner.stat path args <;>
      simp [ErrorContextLayer.layer, ErrorContextAccessor.stat, h, Except.mapError]
  · intro path args v
    cases h : inner.delete path args <;>
      simp [ErrorContextLayer.layer, ErrorContextAccessor.delete, h, Except.mapError]
  · intro path args rp os
    cases h : inner.list path args <;>
      simp [ErrorContextLayer.layer, ErrorContextAccessor.list, h,
        Except.mapError, Except.map, Prod.ext_iff]
  · intro path args rp os
    cases h : inner.scan path args <;>
      simp [ErrorContextLayer.layer, ErrorContextAccessor.scan, h,
        Except.mapError, Except.map, Prod.ext_iff]
  · intro path args v
    cases h : inner.presign path args <;>
      simp [ErrorContextLayer.layer, ErrorContextAccessor.presign, h, Except.mapError]
  · intro path args v
    cases h : inner.blocking_create_dir path args <;>
      simp [ErrorContextLayer.layer, ErrorContextAccessor.blocking_create_dir, h,
        Except.mapError]
  · intro path args rp os
    cases h : inner.blocking_read path args <;>
      simp [ErrorContextLayer.layer, ErrorContextAccessor.blocking_read, h,
        Except.mapError, Except.map, Prod.ext_iff]
  · intro path args rp os
    cases h : inner.blocking_write path args <;>
      simp [ErrorContextLayer.layer, ErrorContextAccessor.blocking_write, h,
        Except.mapError, Except.map, Prod.ext_iff]
  · intro path args v
    cases h : inner.blocking_stat path args <;>
      simp [ErrorContextLayer.layer, ErrorContextAccessor.blocking_stat, h, Except.mapError]
  · intro path args v
    cases h : inner.blocking_delete path args <;>
      simp [ErrorContextLayer.layer, ErrorContextAccessor.blocking_delete, h, Except.mapError]
  · intro path args rp os
    cases h : inner.blocking_list path args <;>
      simp [ErrorContextLayer.layer, ErrorContextAccessor.blocking_list, h,
        Except.mapError, Except.map, Prod.ext_iff]
  · intro path args rp os
    cases h : inner.blocking_scan path args <;>
      simp [ErrorContextLayer.layer, ErrorContextAccessor.blocking_scan, h,
        Except.mapError, Except.map, Prod.ext_iff]
  · intro s p r n k
    cases h : r.poll_read n <;> simp [ErrorContextWrapper.poll_read, h, Except.mapError]
  · intro s p r pos k
    cases h : r.poll_seek pos <;> simp [ErrorContextWrapper.poll_seek, h, Except.mapError]
  · intro s p r
    cases h : r.poll_next <;> simp [ErrorContextWrapper.poll_next, h]
  · intro s p r bs
    cases h : r.poll_next with
    | none => simp [ErrorContextWrapper.poll_next, h]
    | some x => cases x <;> simp [ErrorContextWrapper.poll_next, h, Except.mapError]
  · intro s p r n k
    cases h : r.read n <;> simp [ErrorContextWrapper.blocking_read, h, Except.mapError]
  · intro s p r pos k
    cases h : r.seek pos <;> simp [ErrorContextWrapper.blocking_seek, h, Except.mapError]
  · intro s p r
    cases h : r.next <;> simp [ErrorContextWrapper.blocking_next, h]
  · intro s p r bs
    cases h : r.next with
    | none => simp [ErrorContextWrapper.blocking_next, h]
    | some x => cases x <;> simp [ErrorContextWrapper.blocking_next, h, Except.mapError]
  · intro s p w bs
    cases h : w.write bs <;> simp [ErrorContextWrapper.write, h, Except.mapError]
  · intro s p w bs
    cases h : w.append bs <;> simp [ErrorContextWrapper.append, h, Except.mapError]
  · intro s p w
    cases h : w.abort <;> simp [ErrorContextWrapper.abort, h, Except.mapError]
  · intro s p w
    cases h : w.close <;> simp [ErrorContextWrapper.close, h, Except.mapError]
  · intro s p w bs
    cases h : w.write bs <;> simp [ErrorContextWrapper.blocking_write, h, Except.mapError]
  · intro s p w bs
    cases h : w.append bs <;> simp [ErrorContextWrapper.blocking_append, h, Except.mapError]
  · intro s p w
    cases h : w.close <;> simp [ErrorContextWrapper.blocking_close, h, Except.mapError]
  · intro s p pg v
    cases h : pg.next <;> simp [ErrorContextWrapper.page_next, h, Except.mapError]
  · intro s p pg v
    cases h : pg.next <;> simp [ErrorContextWrapper.blocking_page_next, h, Except.mapError]

/-- Annotating an Except's error side never changes whether it is a
success. -/
theorem exceptIsOk_mapError {ε ε' α : Type} (f : ε → ε') (x : Except ε α) :
    exceptIsOk (x.mapError f) = exceptIsOk x := by
  cases x <;> rfl

/-- C4: a batch call whose backend response parses — small enough for the
limit, transport succeeded, status 202, a boundary present in
CONTENT_TYPE — returns, without the overall call failing, one entry per
submitted path whose value is exactly that path's own outcome (so one
path's failure is confined to its own entry); and the error-context layer
passes a successful batch through with every entry kept, its key and its
success-or-failure status unchanged (failing entries only gain
annotation). -/
theorem azblob_batch_one_entry_per_path
    (core : AzblobCore) (args : OpBatch) (resp : BatchResp) (ct b : String)
    (h1 : (args.ops.map Prod.fst).length ≤ AZBLOB_BATCH_LIMIT)
    (h2 : core.azblob_batch_delete (args.ops.map Prod.fst) = .ok resp)
    (h3 : resp.status = 202)
    (h4 : resp.contentType = some ct)
    (h5 : (rustSplit ct "boundary=")[1]? = some b)
    {R BR W BW P BP : Type} (inner : Accessor R BR W BW P BP)
    (argsB : OpBatch) (v : RpBatch)
    (h6 : inner.batch argsB = .ok v) :
    AzblobBackend.batch core args =
      .ok ((args.ops.map Prod.fst).map fun p => (p, resp.outcomes p))
  ∧ (ErrorContextLayer.layer inner).batch argsB =
      .ok (v.map fun pr =>
        (pr.1, pr.2.mapError
          (specAnnotated Operation.Delete.toStr
            [("service", inner.info.scheme.toStr), ("path", pr.1)])))
  ∧ (v.map fun pr =>
        (pr.1, pr.2.mapError
          (specAnnotated Operation.Delete.toStr
            [("service", inner.info.scheme.toStr), ("path", pr.1)]))).map Prod.fst
      = v.map Prod.fst
  ∧ (v.map fun pr =>
        (pr.1, pr.2.mapError
          (specAnnotated Operation.Delete.toStr
            [("service", inner.info.scheme.toStr), ("path", pr.1)]))).map
          (fun pr => exceptIsOk pr.2)
      = v.map (fun pr => exceptIsOk pr.2) := by
  have h1' : args.ops.length ≤ AZBLOB_BATCH_LIMIT := by simpa using h1
  refine ⟨?_, ?_, ?_, ?_⟩
  · simp [AzblobBackend.batch, Nat.not_lt.mpr h1', h2, h3, h4, h5,
      parse_batch_delete_response]
  · simp [ErrorContextLayer.layer, ErrorContextAccessor.batch, h6,
      Except.map, Except.mapError, specAnnotated, Error.with_operation, Error.with_context]
  · simp [List.map_map, Function.comp]
  · simp [List.map_map, Function.comp, exceptIsOk_mapError]

/-- C4 witness: a concrete two-path batch against `sampleCore` (where path
"b" fails in the multipart body) yields one entry per path with "b"
failing and "a" acknowledged, and the layered batch over
`okBatchAccessor` keeps both entries with their statuses. -/
theorem azblob_batch_one_entry_per_path_witness :
    AzblobBackend.batch sampleCore { ops := [("a", ()), ("b", ())] } =
      .ok [("a", .ok ()), ("b", .error sampleErr)]
  ∧ (ErrorContextLayer.layer okBatchAccessor).batch { ops := [("x", ()), ("y", ())] } =
      .ok [("x", .ok ()),
           ("y", .error (specAnnotated Operation.Delete.toStr
              [("service", "azblob"), ("path", "y")] sampleErr))]
  ∧ ([("x", (.ok () : Except Error Unit)),
      ("y", .error (specAnnotated Operation.Delete.toStr
         [("service", "azblob"), ("path", "y")] sampleErr))].map Prod.fst
       = ["x", "y"]) := by
  have h := azblob_batch_one_entry_per_path sampleCore { ops := [("a", ()), ("b", ())] }
    sampleBatchResp "multipart/mixed; boundary=batch_abc" "batch_abc"
    (by decide) rfl rfl rfl (by decide)
    okBatchAccessor { ops := [("x", ()), ("y", ())] }
    [("x", .ok ()), ("y", .error sampleErr)] rfl
  exact ⟨h.1.trans rfl, h.2.1.trans rfl, by decide⟩

/-- A backend core returning the given response to every delete request. -/
def coreWithDeleteResp (resp : DeleteResp) : AzblobCore :=
  { sampleCore with azblob_delete_blob := fun _ => .ok resp }

/-- C5: a batch call submitting more paths than the declared maximum is
rejected outright with an Error — the declared maximum in the backend's
AccessorInfo being 256 — and the rejection is the same whatever the
backend would have answered, so no backend request influences it (no
auto-chunking happens). -/
theorem azblob_batch_oversized_rejected
    (core : AzblobCore) (args : OpBatch)
    (h : (args.ops.map Prod.fst).length > AZBLOB_BATCH_LIMIT) :
    AzblobBackend.batch core args =
      .error (Error.new .Unsupported "batch delete limit exceeded")
  ∧ (AzblobBackend.info core).max_batch_operations = 256
  ∧ ∀ core' : AzblobCore,
      AzblobBackend.batch core' args = AzblobBackend.batch core args := by
  have h' : AZBLOB_BATCH_LIMIT < args.ops.length := by simpa using h
  refine ⟨?_, rfl, ?_⟩
  · simp [AzblobBackend.batch, h']
  · intro core'
    simp [AzblobBackend.batch, h']

/-- C5 witness: 257 paths against the concrete core are rejected with the
Unsupported error. -/
theorem azblob_batch_oversized_rejected_witness :
    AzblobBackend.batch sampleCore { ops := List.replicate 257 ("p", ()) } =
      .error (Error.new .Unsupported "batch delete limit exceeded") :=
  (azblob_batch_oversized_rejected sampleCore { ops := List.replicate 257 ("p", ()) }
    (by rw [List.length_map, List.length_replicate]; decide)).1

/-- C6: a delete whose backend response is 404 NOT_FOUND returns the
success acknowledgement, and a sequence of deletes of the same path, each
answered by the backend with 202 (deleted) or 404 (already gone),
succeeds at every position. -/
theorem azblob_delete_not_found_is_success
    (core : AzblobCore) (path : String) (args : OpDelete) (resp : DeleteResp)
    (h1 : core.azblob_delete_blob path = .ok resp)
    (h2 : resp.status = 404)
    (resps : Nat → DeleteResp)
    (h3 : ∀ i, (resps i).status = 202 ∨ (resps i).status = 404) :
    AzblobBackend.delete core path args = .ok ()
  ∧ ∀ i, AzblobBackend.delete (coreWithDeleteResp (resps i)) path args = .ok () := by
  constructor
  · simp [AzblobBackend.delete, h1, h2]
  · intro i
    rcases h3 i with h | h <;> simp [AzblobBackend.delete, coreWithDeleteResp, h]

/-- C6 witness: deleting through the concrete core (whose delete requests
come back 404) succeeds, also on a repeated call. -/
theorem azblob_delete_not_found_is_success_witness :
    AzblobBackend.delete sampleCore "a" () = .ok ()
  ∧ AzblobBackend.delete (coreWithDeleteResp { status := 404, err := sampleErr }) "a" () =
      .ok () := by
  have h := azblob_delete_not_found_is_success sampleCore "a" ()
    { status := 404, err := sampleErr } rfl rfl
    (fun _ => { status := 404, err := sampleErr }) (fun _ => Or.inr rfl)
  exact ⟨h.1, h.2 5⟩

/-- C7: a write whose arguments carry the append flag fails with the
Unsupported error before anything reaches the backend — no Writer is
returned, and the outcome is the same whatever the backend would have
answered, so no bytes are staged or sent. -/
theorem azblob_write_append_unsupported
    (core : AzblobCore) (path : String) (args : OpWrite)
    (h : args.append = true) :
    AzblobBackend.write core path args =
      .error (Error.new .Unsupported "append write is not supported")
  ∧ ∀ core' : AzblobCore,
      AzblobBackend.write core' path args = AzblobBackend.write core path args := by
  constructor
  · simp [AzblobBackend.write, h]
  · intro core'
    simp [AzblobBackend.write, h]

/-- C7 witness: an append-flagged write against the concrete core fails
with the Unsupported error. -/
theorem azblob_write_append_unsupported_witness :
    AzblobBackend.write sampleCore "a" { append := true } =
      .error (Error.new .Unsupported "append write is not supported") :=
  (azblob_write_append_unsupported sampleCore "a" { append := true } rfl).1

/-- C8: stat on the root path "/" returns a directory Metadata for every
backend core — in particular for every possible backend response
behavior, so no backend round trip can influence it. -/
theorem azblob_stat_root_always_dir (core : AzblobCore) (args : OpStat) :
    AzblobBackend.stat core "/" args = .ok (Metadata.new EntryMode.DIR)
  ∧ ∀ core' : AzblobCore,
      AzblobBackend.stat core' "/" args = AzblobBackend.stat core "/" args := by
  constructor
  · simp [AzblobBackend.stat]
  · intro core'
    simp [AzblobBackend.stat]

/-- C9: evaluation at the failing input. A read that fails through the
binding is returned as the empty content — the same value a successful
empty read returns — so the Error and its Kind are discarded and the
failure is reported as a valid result; a failing write is turned into a
panic instead of a structured Error. -/
theorem ffi_read_failure_reported_as_empty_success :
    ffiRead (Except.error (Error.new .NotFound "no such key")) = RustOutcome.ret []
  ∧ ffiRead (Except.ok []) = RustOutcome.ret []
  ∧ ffiWrite (Except.error (Error.new .NotFound "no such key")) =
      RustOutcome.panicked "no such key" :=
  ⟨rfl, rfl, rfl⟩

/-- C10 (amended): a scheme string that does not parse, or that parses to
a scheme the binding does not dispatch to a backend, makes getOperator
write 1 into the out-parameter and return a null pointer; a supported
scheme whose operator construction succeeds yields a non-null handle with
the out-parameter untouched; but a supported scheme whose operator cannot
be built makes the binding panic — it neither writes 1 nor returns
null. -/
theorem getOperator_outcome_classes
    (from_map : Scheme → ConfigMap → Except Error OperatorModel)
    (s : String) (map : ConfigMap) :
    (Scheme.from_str s = none →
      getOperator from_map s map = .ret (none, some 1))
  ∧ (∀ scheme, Scheme.from_str s = some scheme → bindingSupported scheme = false →
      getOperator from_map s map = .ret (none, some 1))
  ∧ (∀ scheme op, Scheme.from_str s = some scheme → bindingSupported scheme = true →
      from_map scheme map = .ok op →
      getOperator from_map s map = .ret (some op, none))
  ∧ (∀ scheme e, Scheme.from_str s = some scheme → bindingSupported scheme = true →
      from_map scheme map = .error e →
      getOperator from_map s map = .panicked e.message) := by
  refine ⟨?_, ?_, ?_, ?_⟩
  · intro h
    simp [getOperator, h]
  · intro scheme h hs
    cases scheme <;> simp_all [bindingSupported, getOperator, build_operator]
  · intro scheme op h hs hm
    cases scheme <;> simp_all [bindingSupported, getOperator, build_operator]
  · intro scheme e h hs hm
    cases scheme <;> simp_all [bindingSupported, getOperator, build_operator]

/-- C10 witness: the four outcome classes at concrete inputs — an unknown
scheme string, the recognized-but-unsupported "ftp", a successful
"memory" construction, and an "azblob" construction that fails on an
empty configuration. -/
theorem getOperator_outcome_classes_witness :
    getOperator bindingFromMap "nosuch" [] = .ret (none, some 1)
  ∧ getOperator bindingFromMap "ftp" [] = .ret (none, some 1)
  ∧ getOperator bindingFromMap "memory" [] = .ret (some { scheme := .Memory }, none)
  ∧ getOperator bindingFromMap "azblob" [] = .panicked "container is empty" := by
  refine ⟨(getOperator_outcome_classes bindingFromMap "nosuch" []).1 rfl,
    (getOperator_outcome_classes bindingFromMap "ftp" []).2.1 .Ftp rfl rfl,
    (getOperator_outcome_classes bindingFromMap "memory" []).2.2.1 .Memory
      { scheme := .Memory } rfl rfl rfl,
    (getOperator_outcome_classes bindingFromMap "azblob" []).2.2.2 .Azblob
      (((Error.new .ConfigInvalid "container is empty").with_operation
        "Builder::build").with_context "service" Scheme.Azblob.toStr) rfl rfl rfl⟩

/-- C10 counterexample: with the azblob scheme and an empty configuration
the operator cannot be built (the builder fails with ConfigInvalid), yet
getOperator panics instead of writing 1 and returning null. -/
theorem getOperator_build_failure_panics_not_null :
    bindingFromMap .Azblob [] =
      Except.error (((Error.new .ConfigInvalid "container is empty").with_operation
        "Builder::build").with_context "service" Scheme.Azblob.toStr)
  ∧ getOperator bindingFromMap "azblob" [] = RustOutcome.panicked "container is empty"
  ∧ (RustOutcome.panicked "container is empty" :
        RustOutcome (Option OperatorModel × Option Int)) ≠
      RustOutcome.ret (none, some 1) := by
  exact ⟨rfl, rfl, by decide⟩
